import Mathlib

/-!
Shallow embedding of the Ansible module `create_file.py` from this
repository (plugins/modules/create_file.py).

The module ensures a single file exists with a desired text content and,
optionally, a desired owner, group and permission mode.  The filesystem is
modelled as an association list from paths to file states, together with a
list of existing directories and a table of injected OS write errors.  Host
(Ansible) helpers that the module calls but that are not part of the
repository — `AnsibleModule.backup_local` and
`AnsibleModule.set_fs_attributes_if_different` — are modelled from the
specification of the capability they provide.
-/

namespace CreateFile

/-- A before/after pair, the value produced by `get_file_diff`. -/
structure DiffPair where
  before : String
  after : String
deriving DecidableEq

/-- One regular file on the modelled filesystem: its text content, its
owner, group and permission mode, and an optional OS error message that is
raised whenever the file is opened for reading (`readErr = some e` models an
unreadable file, as in `open(path).read()` raising `OSError(e)`). -/
structure FileState where
  content : String
  owner : String := "root"
  group : String := "root"
  mode : String := "0644"
  readErr : Option String := none
deriving DecidableEq

/-- The modelled filesystem: regular files (association list from paths to
file states), existing directories, and injected OS write errors — a path
listed in `writeErr` makes any attempt to create or overwrite that path
raise an OSError with the stored message. -/
structure FS where
  files : List (String × FileState)
  dirs : List String := []
  writeErr : List (String × String) := []
deriving DecidableEq

/-- Look a path up in the file table (first match wins). -/
def findFile : List (String × FileState) → String → Option FileState
  | [], _ => none
  | (q, g) :: rest, p => if q = p then some g else findFile rest p

/-- Look a path up in the write-error table. -/
def lookupStr : List (String × String) → String → Option String
  | [], _ => none
  | (q, e) :: rest, p => if q = p then some e else lookupStr rest p

/-- Replace the entry for a path in the file table, or append it. -/
def setEntry : List (String × FileState) → String → FileState → List (String × FileState)
  | [], p, f => [(p, f)]
  | (q, g) :: rest, p, f => if q = p then (p, f) :: rest else (q, g) :: setEntry rest p f

/-- Create or overwrite the file stored at path `p`. -/
def FS.setFile (fs : FS) (p : String) (f : FileState) : FS :=
  { fs with files := setEntry fs.files p f }

/-- `os.path.exists`: true for regular files and for directories. -/
def FS.pathExists (fs : FS) (p : String) : Bool :=
  (findFile fs.files p).isSome || fs.dirs.contains p

/-- `open(p, 'r').read()`: returns the content, or the OS error message when
the path is unreadable or is not a regular file. -/
def FS.read_file (fs : FS) (p : String) : Except String String :=
  match findFile fs.files p with
  | some f =>
    match f.readErr with
    | none => Except.ok f.content
    | some e => Except.error e
  | none => Except.error ("No such file or directory: " ++ p)

/-- `os.path.dirname` for POSIX paths: everything up to the last slash,
with trailing slashes stripped unless the head is all slashes. -/
def dirname (p : String) : String :=
  let cs := p.data
  match cs.reverse.findIdx? (fun c => c == '/') with
  | none => ""
  | some k =>
    let head := cs.take (cs.length - k)
    if head.all (fun c => c == '/') then String.mk head
    else String.mk ((head.reverse.dropWhile (fun c => c == '/')).reverse)

/-- `write_file` from create_file.py: create the parent directory when it
does not exist, then open the path for writing and write `content`, fully
replacing any prior content.  An OSError while creating or writing the path
(modelled by `FS.writeErr`) is returned as `(False, str(e))`, here
`Except.error`.  `os.makedirs` is host OS code; it is modelled as
registering the parent directory (recursive creation of further missing
ancestors is not observed by any property here and is abstracted). -/
def write_file (fs : FS) (path content : String) : Except String FS :=
  match lookupStr fs.writeErr path with
  | some e => Except.error e
  | none =>
    let d := dirname path
    let fs1 := if d != "" && !(FS.pathExists fs d) then { fs with dirs := d :: fs.dirs } else fs
    match findFile fs1.files path with
    | some f => Except.ok (FS.setFile fs1 path { f with content := content })
    | none => Except.ok (FS.setFile fs1 path { content := content })

/-- `get_file_diff` from create_file.py: when the path exists, read it and
return the before/after pair; an `IOError`/`OSError` while reading is
caught and `None` is returned instead. -/
def get_file_diff (fs : FS) (path content : String) : Option DiffPair :=
  if fs.pathExists path then
    match fs.read_file path with
    | Except.ok old => some { before := old, after := content }
    | Except.error _ => none
  else none

/-- The module parameters, with the defaults of the argument spec
(`force` defaults to true, `backup` to false, the identity options to
absent). -/
structure Params where
  path : String
  content : String
  owner : Option String := none
  group : Option String := none
  mode : Option String := none
  force : Bool := true
  backup : Bool := false
deriving DecidableEq

/-- The host `AnsibleModule` context: the validated parameters, the
host-supplied check-mode and diff-mode flags, and the process id and
timestamp used to name backup files. -/
structure Module where
  params : Params
  check_mode : Bool := false
  diff_mode : Bool := false
  pid : Nat := 0
  timestamp : String := ""
deriving DecidableEq

/-- Modelled from the spec: the backup path produced by the host helper
`AnsibleModule.backup_local` (absent from src) — the target path suffixed
with a process id and a timestamp token, format path.pid.timestamp~ . -/
def backup_name (path : String) (pid : Nat) (timestamp : String) : String :=
  path ++ "." ++ toString pid ++ "." ++ timestamp ++ "~"

/-- Modelled from the spec: `AnsibleModule.backup_local` (host code absent
from src) copies the existing file to the sibling backup path and returns
that path; an OS failure while creating the copy (modelled by `FS.writeErr`
on the backup path) raises an exception carrying the OS error text. -/
def backup_local (m : Module) (fs : FS) (path : String) : Except String (String × FS) :=
  let bname := backup_name path m.pid m.timestamp
  match lookupStr fs.writeErr bname with
  | some e => Except.error e
  | none =>
    match findFile fs.files path with
    | some f => Except.ok (bname, fs.setFile bname f)
    | none => Except.error ("Could not make backup of " ++ path)

/-- `create_backup` from create_file.py: when the path exists, call
`backup_local`; any exception is caught, a warning is logged and `None` is
returned.  The result is (backup path, warnings, filesystem). -/
def create_backup (m : Module) (fs : FS) (path : String) :
    Option String × List String × FS :=
  if fs.pathExists path then
    match backup_local m fs path with
    | Except.ok (bf, fs2) => (some bf, [], fs2)
    | Except.error e => (none, ["Не удалось создать резервную копию: " ++ e], fs)
  else (none, [], fs)

/-- The owner/group/mode triple currently stored for a path. -/
def attrsOf (fs : FS) (p : String) : Option (String × String × String) :=
  (findFile fs.files p).map (fun f => (f.owner, f.group, f.mode))

/-- Whether some requested attribute is specified and differs from the
current attribute of the file stored at `p`. -/
def attrs_differ (fs : FS) (p : String) (owner group mode : Option String) : Bool :=
  match findFile fs.files p with
  | none => false
  | some f =>
    (owner.getD f.owner != f.owner) || (group.getD f.group != f.group) ||
      (mode.getD f.mode != f.mode)

/-- Modelled from the spec: `AnsibleModule.set_fs_attributes_if_different`
(host code absent from src) — the capability interface of §9: apply
owner/group/mode when specified and different from the current values, and
return `changed` or-ed with whether anything was altered, together with the
resulting filesystem. -/
def set_fs_attributes_if_different (fs : FS) (p : String)
    (owner group mode : Option String) (changed : Bool) : Bool × FS :=
  match findFile fs.files p with
  | none => (changed, fs)
  | some f =>
    if attrs_differ fs p owner group mode then
      (true, fs.setFile p
        { f with
          owner := owner.getD f.owner
          group := group.getD f.group
          mode := mode.getD f.mode })
    else (changed, fs)

/-- The result record the module reports: `path`, `content`, `changed`,
optionally `backup_file`, and optionally the `diff` key (whose value may
itself be `None`, hence the nested option). -/
structure ModuleResult where
  changed : Bool
  path : String
  content : String
  backup_file : Option String := none
  diff : Option (Option DiffPair) := none
deriving DecidableEq

/-- How an invocation ends: `exit_json(**result)` or `fail_json(msg,
**result)`, each carrying the warnings logged so far. -/
inductive Outcome where
  | exited (result : ModuleResult) (warnings : List String)
  | failed (msg : String) (result : ModuleResult) (warnings : List String)
deriving DecidableEq

/-- The result record an outcome carries. -/
def Outcome.result : Outcome → ModuleResult
  | .exited r _ => r
  | .failed _ r _ => r

/-- The warnings an outcome carries. -/
def Outcome.warnings : Outcome → List String
  | .exited _ w => w
  | .failed _ _ w => w

/-- Whether the invocation completed successfully (`exit_json`). -/
def Outcome.isExit : Outcome → Bool
  | .exited _ _ => true
  | .failed _ _ _ => false

/-- The failure message, when the invocation failed. -/
def Outcome.failMsg : Outcome → Option String
  | .exited _ _ => none
  | .failed msg _ _ => some msg

/-- `run_module` from create_file.py, step by step in source order:
initialise the result record; check existence; fail when `force` is false
and the file exists; read the existing content, failing on a read error;
compute `changed`; record path and content; capture the diff when diff
mode or check mode is on; exit early in check mode; when nothing changed,
only re-apply attributes; otherwise back the file up when requested, write
the new content (fatal on error), apply attributes and exit. -/
def run_module (m : Module) (fs : FS) : Outcome × FS :=
  let result0 : ModuleResult := { changed := false, path := "", content := "" }
  let path := m.params.path
  let content := m.params.content
  let file_exists := fs.pathExists path
  if !m.params.force && file_exists then
    (Outcome.failed ("Файл " ++ path ++ " уже существует и force=no") result0 [], fs)
  else
    match (if file_exists then (fs.read_file path).map some
           else Except.ok none : Except String (Option String)) with
    | Except.error e =>
      (Outcome.failed ("Не удалось прочитать существующий файл " ++ path ++ ": " ++ e)
        result0 [], fs)
    | Except.ok existing_content =>
      let result1 :=
        if !file_exists || existing_content != some content then
          { result0 with changed := true }
        else result0
      let result2 := { result1 with path := path, content := content }
      let result3 :=
        if m.diff_mode || m.check_mode then
          { result2 with diff := some (get_file_diff fs path content) }
        else result2
      if m.check_mode then (Outcome.exited result3 [], fs)
      else if !result3.changed then
        let st := set_fs_attributes_if_different fs path m.params.owner m.params.group
          m.params.mode result3.changed
        (Outcome.exited { result3 with changed := st.1 } [], st.2)
      else
        let bk := if m.params.backup && file_exists then create_backup m fs path
          else (none, [], fs)
        let result4 :=
          match bk.1 with
          | some bf => { result3 with backup_file := some bf }
          | none => result3
        match write_file bk.2.2 path content with
        | Except.error e =>
          (Outcome.failed ("Не удалось записать файл " ++ path ++ ": " ++ e) result4 bk.2.1,
            bk.2.2)
        | Except.ok fs2 =>
          let st := set_fs_attributes_if_different fs2 path m.params.owner m.params.group
            m.params.mode result4.changed
          (Outcome.exited { result4 with changed := st.1 } bk.2.1, st.2)

/-! Concrete fixtures used to instantiate the theorems below. -/

/-- An empty filesystem. -/
def fsEmpty : FS := { files := [] }

/-- A filesystem holding one readable file `/t/a` with content `h`. -/
def fsOne : FS := { files := [("/t/a", { content := "h" })] }

/-- A request to create `/t/a` with content `h`, default flags. -/
def mNew : Module := { params := { path := "/t/a", content := "h" } }

/-- A request for `/t/a` with content `h` and mode `0755` (the stored file
has mode `0644`), in check mode. -/
def mAttrChk : Module :=
  { params := { path := "/t/a", content := "h", mode := some "0755" }, check_mode := true }

/-- The same request as `mAttrChk` but not in check mode. -/
def mAttrReal : Module :=
  { params := { path := "/t/a", content := "h", mode := some "0755" } }

/-- A request for `/t/a` with content `x` and `force := false`. -/
def mC3 : Module := { params := { path := "/t/a", content := "x", force := false } }

/-- A request for `/t/a` with content `x`, default flags. -/
def mPlain : Module := { params := { path := "/t/a", content := "x" } }

/-- A request for `/t/a` with content `x` and `backup := true`, pid 5,
timestamp `T`, so the backup path is `/t/a.5.T~`. -/
def mBak : Module :=
  { params := { path := "/t/a", content := "x", backup := true }, pid := 5, timestamp := "T" }

/-- A filesystem where `/t/a` exists but reading it raises `EACCES`. -/
def fsBad : FS := { files := [("/t/a", { content := "h", readErr := some "EACCES" })] }

/-- An empty filesystem where writing `/t/a` raises `ENOSPC`. -/
def fsErrW : FS := { files := [], writeErr := [("/t/a", "ENOSPC")] }

/-- A filesystem holding `/t/a` where writing the backup path `/t/a.5.T~`
raises `EACCES`. -/
def fsBakErr : FS :=
  { files := [("/t/a", { content := "h" })], writeErr := [("/t/a.5.T~", "EACCES")] }

/-! Helper lemmas about the filesystem operations. -/

theorem findFile_none_of_not_exists (fs : FS) (p : String)
    (hex : FS.pathExists fs p = false) : findFile fs.files p = none := by
  cases hff : findFile fs.files p with
  | none => rfl
  | some f => rw [FS.pathExists, hff] at hex; simp at hex

theorem findFile_setEntry_self (l : List (String × FileState)) (p : String) (f : FileState) :
    findFile (setEntry l p f) p = some f := by
  induction l with
  | nil => simp [setEntry, findFile]
  | cons hd tl ih =>
    obtain ⟨q, g⟩ := hd
    by_cases hq : q = p
    · simp [setEntry, hq, findFile]
    · simp [setEntry, hq, findFile, ih]

theorem findFile_setEntry_ne (l : List (String × FileState)) (p q : String) (f : FileState)
    (hq : q ≠ p) : findFile (setEntry l p f) q = findFile l q := by
  induction l with
  | nil =>
    simp only [setEntry, findFile]
    rw [if_neg (fun h => hq h.symm)]
  | cons hd tl ih =>
    obtain ⟨a, g⟩ := hd
    by_cases ha : a = p
    · subst ha
      simp only [setEntry, if_pos rfl, findFile]
      rw [if_neg (fun h => hq h.symm), if_neg (fun h => hq h.symm)]
    · simp [setEntry, ha, findFile, ih]

theorem set_attr_fst (fs : FS) (p : String) (o g md : Option String) (c : Bool) :
    (set_fs_attributes_if_different fs p o g md c).1 = (c || attrs_differ fs p o g md) := by
  unfold set_fs_attributes_if_different attrs_differ
  cases hf : findFile fs.files p with
  | none => simp
  | some f =>
    by_cases hd : ((o.getD f.owner != f.owner) || (g.getD f.group != f.group) ||
        (md.getD f.mode != f.mode)) = true
    · simp [attrs_differ, hf, hd]
    · simp [attrs_differ, hf] at hd ⊢
      simp [hd]

theorem set_attr_content (fs : FS) (p : String) (o g md : Option String) (c : Bool) :
    (findFile (set_fs_attributes_if_different fs p o g md c).2.files p).map FileState.content
      = (findFile fs.files p).map FileState.content := by
  unfold set_fs_attributes_if_different
  cases hf : findFile fs.files p with
  | none => simp [hf]
  | some f =>
    by_cases hd : attrs_differ fs p o g md = true
    · simp [hd, FS.setFile, findFile_setEntry_self, hf]
    · simp [Bool.not_eq_true] at hd
      simp [hd, hf]

theorem set_attr_findFile_ne (fs : FS) (p q : String) (o g md : Option String)
    (hq : q ≠ p) (c : Bool) :
    findFile (set_fs_attributes_if_different fs p o g md c).2.files q = findFile fs.files q := by
  unfold set_fs_attributes_if_different
  cases hf : findFile fs.files p with
  | none => simp
  | some f =>
    by_cases hd : attrs_differ fs p o g md = true
    · simp [hd, FS.setFile, findFile_setEntry_ne _ _ _ _ hq]
    · simp [Bool.not_eq_true] at hd
      simp [hd]

theorem set_attr_apply (fs : FS) (p : String) (o g md : Option String) (c : Bool)
    (f : FileState) (hf : findFile fs.files p = some f) :
    attrsOf (set_fs_attributes_if_different fs p o g md c).2 p =
      some (o.getD f.owner, g.getD f.group, md.getD f.mode) := by
  by_cases hd : attrs_differ fs p o g md = true
  · unfold set_fs_attributes_if_different
    rw [hf]
    simp [hd, attrsOf, FS.setFile, findFile_setEntry_self]
  · have hd0 : attrs_differ fs p o g md = false := by
      simpa [Bool.not_eq_true] using hd
    have hd1 := hd0
    unfold attrs_differ at hd1
    rw [hf] at hd1
    simp only [Bool.or_eq_false_iff, bne_eq_false_iff_eq] at hd1
    unfold set_fs_attributes_if_different
    rw [hf]
    simp [hd0, attrsOf, hf, hd1.1.1, hd1.1.2, hd1.2]

theorem set_attr_attrsOf_ne (fs : FS) (p : String) (o g md : Option String) (c : Bool) :
    (attrsOf (set_fs_attributes_if_different fs p o g md c).2 p ≠ attrsOf fs p) ↔
      attrs_differ fs p o g md = true := by
  cases hf : findFile fs.files p with
  | none =>
    unfold set_fs_attributes_if_different attrs_differ
    simp [hf]
  | some f =>
    by_cases hd : attrs_differ fs p o g md = true
    · have hd1 := hd
      unfold attrs_differ at hd1
      rw [hf] at hd1
      simp only [Bool.or_eq_true, bne_iff_ne] at hd1
      have hgoal : attrsOf fs p = some (f.owner, f.group, f.mode) := by
        simp [attrsOf, hf]
      have hne : (some (o.getD f.owner, g.getD f.group, md.getD f.mode) :
          Option (String × String × String)) ≠ some (f.owner, f.group, f.mode) := by
        intro hcon
        simp only [Option.some.injEq, Prod.mk.injEq] at hcon
        rcases hd1 with (h | h) | h
        · exact h hcon.1
        · exact h hcon.2.1
        · exact h hcon.2.2
      rw [set_attr_apply fs p o g md c f hf, hgoal]
      simp [hne, hd]
    · have hd0 : attrs_differ fs p o g md = false := by
        simpa [Bool.not_eq_true] using hd
      unfold set_fs_attributes_if_different
      rw [hf]
      simp [hd0]

theorem set_attr_dirs (fs : FS) (p : String) (o g md : Option String) (c : Bool) :
    (set_fs_attributes_if_different fs p o g md c).2.dirs = fs.dirs := by
  unfold set_fs_attributes_if_different
  cases hf : findFile fs.files p with
  | none => simp
  | some f =>
    by_cases hd : attrs_differ fs p o g md = true
    · simp [hd, FS.setFile]
    · simp [Bool.not_eq_true] at hd
      simp [hd]

theorem backup_name_ne (p : String) (pid : Nat) (ts : String) :
    backup_name p pid ts ≠ p := by
  intro h
  have hl := congrArg String.length h
  simp only [backup_name, String.length_append] at hl
  have h1 : String.length "." = 1 := rfl
  have h2 : String.length "~" = 1 := rfl
  rw [h1, h2] at hl
  omega

theorem write_file_error (fs : FS) (path c e : String)
    (h : lookupStr fs.writeErr path = some e) :
    write_file fs path c = Except.error e := by
  unfold write_file
  rw [h]

theorem write_file_ok (fs : FS) (path c : String)
    (h : lookupStr fs.writeErr path = none) :
    ∃ fs2, write_file fs path c = Except.ok fs2 ∧
      (findFile fs2.files path).map FileState.content = some c ∧
      (∀ q, q ≠ path → findFile fs2.files q = findFile fs.files q) ∧
      fs2.writeErr = fs.writeErr := by
  by_cases hdir : (dirname path != "" && !(FS.pathExists fs (dirname path))) = true
  · cases hff : findFile fs.files path with
    | some f =>
      refine ⟨FS.setFile { fs with dirs := dirname path :: fs.dirs } path
          { f with content := c }, ?_, ?_, ?_, ?_⟩
      · simp [write_file, h, hdir, hff]
      · simp [FS.setFile, findFile_setEntry_self]
      · intro q hq
        simp [FS.setFile, findFile_setEntry_ne _ _ _ _ hq]
      · simp [FS.setFile]
    | none =>
      refine ⟨FS.setFile { fs with dirs := dirname path :: fs.dirs } path
          { content := c }, ?_, ?_, ?_, ?_⟩
      · simp [write_file, h, hdir, hff]
      · simp [FS.setFile, findFile_setEntry_self]
      · intro q hq
        simp [FS.setFile, findFile_setEntry_ne _ _ _ _ hq]
      · simp [FS.setFile]
  · have hdir0 : (dirname path != "" && !(FS.pathExists fs (dirname path))) = false := by
      simpa [Bool.not_eq_true] using hdir
    cases hff : findFile fs.files path with
    | some f =>
      refine ⟨FS.setFile fs path { f with content := c }, ?_, ?_, ?_, ?_⟩
      · simp [write_file, h, hdir0, hff]
      · simp [FS.setFile, findFile_setEntry_self]
      · intro q hq
        simp [FS.setFile, findFile_setEntry_ne _ _ _ _ hq]
      · simp [FS.setFile]
    | none =>
      refine ⟨FS.setFile fs path { content := c }, ?_, ?_, ?_, ?_⟩
      · simp [write_file, h, hdir0, hff]
      · simp [FS.setFile, findFile_setEntry_self]
      · intro q hq
        simp [FS.setFile, findFile_setEntry_ne _ _ _ _ hq]
      · simp [FS.setFile]

theorem read_file_ok (fs : FS) (p old : String) (h : fs.read_file p = Except.ok old) :
    ∃ f, findFile fs.files p = some f ∧ f.readErr = none ∧ f.content = old := by
  cases hf : findFile fs.files p with
  | none => simp [FS.read_file, hf] at h
  | some f =>
    cases hre : f.readErr with
    | none =>
      simp [FS.read_file, hf, hre] at h
      exact ⟨f, rfl, hre, h⟩
    | some e => simp [FS.read_file, hf, hre] at h

theorem read_file_err (fs : FS) (p : String) (f : FileState) (e : String)
    (hf : findFile fs.files p = some f) (he : f.readErr = some e) :
    fs.read_file p = Except.error e := by
  simp [FS.read_file, hf, he]

theorem read_file_of_readable (fs : FS) (p : String) (f : FileState)
    (hf : findFile fs.files p = some f) (he : f.readErr = none) :
    fs.read_file p = Except.ok f.content := by
  simp [FS.read_file, hf, he]

theorem get_file_diff_eq_of_ok (fs : FS) (path c old : String)
    (hr : fs.read_file path = Except.ok old) (he : FS.pathExists fs path = true) :
    get_file_diff fs path c = some { before := old, after := c } := by
  simp [get_file_diff, he, hr]

theorem get_file_diff_eq_of_error (fs : FS) (path c e : String)
    (hr : fs.read_file path = Except.error e) :
    get_file_diff fs path c = none := by
  unfold get_file_diff
  split
  · rw [hr]
  · rfl

theorem get_file_diff_some (fs : FS) (path c : String) (d : DiffPair)
    (h : get_file_diff fs path c = some d) :
    ∃ f, findFile fs.files path = some f ∧ f.readErr = none ∧
      d.before = f.content ∧ d.after = c := by
  by_cases he : FS.pathExists fs path = true
  · cases hr : fs.read_file path with
    | ok old =>
      obtain ⟨f, hf, hre, hco⟩ := read_file_ok fs path old hr
      rw [get_file_diff_eq_of_ok fs path c old hr he] at h
      have h2 := Option.some.inj h
      exact ⟨f, hf, hre, by rw [← h2, hco], by rw [← h2]⟩
    | error e =>
      rw [get_file_diff_eq_of_error fs path c e hr] at h
      exact absurd h (by simp)
  · have he0 : FS.pathExists fs path = false := by
      simpa [Bool.not_eq_true] using he
    simp [get_file_diff, he0] at h

/-! The claims. -/

/-- Claim C3: for every invocation with `force = false` where the target
file already exists, the operation fails with the precondition error
(`fail_json` with the file-already-exists message, the model of
`PreconditionFailed`) and the filesystem is left unmodified. -/
theorem run_module_force_precondition (m : Module) (fs : FS)
    (h1 : m.params.force = false) (h2 : FS.pathExists fs m.params.path = true) :
    run_module m fs =
      (Outcome.failed ("Файл " ++ m.params.path ++ " уже существует и force=no")
        { changed := false, path := "", content := "" } [], fs) := by
  simp [run_module, h1, h2]

/-- Claim C3 witness: the theorem applied to the `force := false` request
against a filesystem where the target exists. -/
theorem run_module_force_precondition_witness :
    run_module mC3 fsOne =
      (Outcome.failed ("Файл " ++ mC3.params.path ++ " уже существует и force=no")
        { changed := false, path := "", content := "" } [], fsOne) :=
  run_module_force_precondition mC3 fsOne (by decide) (by decide)

/-- Claim C9: when the operation fails at the force precondition or at
reading the existing file, the partial result attached to the failure still
carries the initial values — empty path, empty content, `changed = false` —
because the result fields are only filled in after both checks pass; the
filesystem is untouched. -/
theorem run_module_early_fail_initial_result (m : Module) (fs : FS)
    (h : (m.params.force = false ∧ FS.pathExists fs m.params.path = true) ∨
         (∃ f e, findFile fs.files m.params.path = some f ∧ f.readErr = some e) ∨
         (findFile fs.files m.params.path = none ∧ fs.dirs.contains m.params.path = true)) :
    (run_module m fs).1.isExit = false ∧
    (run_module m fs).1.result = { changed := false, path := "", content := "" } ∧
    (run_module m fs).2 = fs := by
  rcases h with ⟨h1, h2⟩ | ⟨f, e, hf, he⟩ | ⟨hf, hd⟩
  · simp [run_module, h1, h2, Outcome.isExit, Outcome.result]
  · have hex : FS.pathExists fs m.params.path = true := by simp [FS.pathExists, hf]
    have hread := read_file_err fs m.params.path f e hf he
    cases hforce : m.params.force
    · simp [run_module, hforce, hex, Outcome.isExit, Outcome.result]
    · simp [run_module, hforce, hex, hread, Except.map, Outcome.isExit, Outcome.result]
  · have hex : FS.pathExists fs m.params.path = true := by
      simp [FS.pathExists, hf]
      simpa using hd
    have hread : fs.read_file m.params.path =
        Except.error ("No such file or directory: " ++ m.params.path) := by
      simp [FS.read_file, hf]
    cases hforce : m.params.force
    · simp [run_module, hforce, hex, Outcome.isExit, Outcome.result]
    · simp [run_module, hforce, hex, hread, Except.map, Outcome.isExit, Outcome.result]

/-- Claim C9 witness: the theorem applied to the unreadable-file fixture. -/
theorem run_module_early_fail_initial_result_witness :
    (run_module mPlain fsBad).1.isExit = false ∧
    (run_module mPlain fsBad).1.result = { changed := false, path := "", content := "" } ∧
    (run_module mPlain fsBad).2 = fsBad :=
  run_module_early_fail_initial_result mPlain fsBad
    (Or.inr (Or.inl ⟨{ content := "h", readErr := some "EACCES" }, "EACCES",
      by decide, by decide⟩))

/-- Claim C10: a read error while capturing the diff is silently swallowed —
`get_file_diff` catches the OS error and returns no diff — whereas the main
content read of the same unreadable file is fatal: `run_module` fails with
the read-failure message carrying the OS error text. -/
theorem get_file_diff_read_error_swallowed (m : Module) (fs : FS) (f : FileState) (e : String)
    (h1 : findFile fs.files m.params.path = some f)
    (h2 : f.readErr = some e)
    (h3 : m.params.force = true) :
    get_file_diff fs m.params.path m.params.content = none ∧
    run_module m fs =
      (Outcome.failed
        ("Не удалось прочитать существующий файл " ++ m.params.path ++ ": " ++ e)
        { changed := false, path := "", content := "" } [], fs) := by
  have hread := read_file_err fs m.params.path f e h1 h2
  have hex : FS.pathExists fs m.params.path = true := by simp [FS.pathExists, h1]
  refine ⟨get_file_diff_eq_of_error fs m.params.path m.params.content e hread, ?_⟩
  simp [run_module, h3, hex, hread, Except.map]

/-- Claim C10 witness: the theorem applied to the unreadable-file fixture. -/
theorem get_file_diff_read_error_swallowed_witness :
    get_file_diff fsBad mPlain.params.path mPlain.params.content = none ∧
    run_module mPlain fsBad =
      (Outcome.failed
        ("Не удалось прочитать существующий файл " ++ mPlain.params.path ++ ": " ++ "EACCES")
        { changed := false, path := "", content := "" } [], fsBad) :=
  get_file_diff_read_error_swallowed mPlain fsBad
    { content := "h", readErr := some "EACCES" } "EACCES" (by decide) (by decide) (by decide)

/-- Claim C2 counterexample: the dry-run `changed` is not always the value
the non-dry-run invocation would report on the same filesystem state.  With
the target file holding identical content but a different mode, check mode
reports `changed = false` (it exits before the attribute check) while the
real invocation reports `changed = true`; the check-mode invocation still
mutates nothing. -/
theorem run_module_check_mode_changed_counterexample :
    (run_module mAttrChk fsOne).2 = fsOne ∧
    (run_module mAttrChk fsOne).1.result.changed = false ∧
    (run_module mAttrReal fsOne).1.result.changed = true := by decide

/-- Claim C2 (amended): for every invocation in check mode, no filesystem
mutation occurs, and when the invocation completes successfully the
reported `changed` is true exactly when the file does not exist or its
content differs from the requested content — attribute-only differences
are not reflected in the dry-run `changed`, unlike in a real run. -/
theorem run_module_check_mode_no_mutation (m : Module) (fs : FS)
    (h : m.check_mode = true) :
    (run_module m fs).2 = fs ∧
    ((run_module m fs).1.isExit = true →
      ((run_module m fs).1.result.changed = true ↔
        (findFile fs.files m.params.path = none ∨
          ∃ f, findFile fs.files m.params.path = some f ∧
            f.content ≠ m.params.content))) := by
  cases hex : FS.pathExists fs m.params.path with
  | false =>
    have hff := findFile_none_of_not_exists fs m.params.path hex
    simp [run_module, hex, h, Outcome.isExit, Outcome.result, hff]
  | true =>
    cases hforce : m.params.force with
    | false => simp [run_module, hforce, hex, Outcome.isExit]
    | true =>
      cases hff : findFile fs.files m.params.path with
      | none =>
        have hread : fs.read_file m.params.path =
            Except.error ("No such file or directory: " ++ m.params.path) := by
          simp [FS.read_file, hff]
        simp [run_module, hforce, hex, hread, Except.map, Outcome.isExit]
      | some f =>
        cases hre : f.readErr with
        | some e =>
          have hread := read_file_err fs m.params.path f e hff hre
          simp [run_module, hforce, hex, hread, Except.map, Outcome.isExit]
        | none =>
          have hread := read_file_of_readable fs m.params.path f hff hre
          by_cases hc : f.content = m.params.content
          · simp [run_module, hforce, hex, hread, Except.map, h, hff, hc,
              Outcome.isExit, Outcome.result]
          · simp [run_module, hforce, hex, hread, Except.map, h, hff, hc,
              Outcome.isExit, Outcome.result]

/-- Claim C2 witness: the amended theorem applied to the check-mode fixture. -/
theorem run_module_check_mode_no_mutation_witness :
    (run_module mAttrChk fsOne).2 = fsOne ∧
    ((run_module mAttrChk fsOne).1.isExit = true →
      ((run_module mAttrChk fsOne).1.result.changed = true ↔
        (findFile fsOne.files mAttrChk.params.path = none ∨
          ∃ f, findFile fsOne.files mAttrChk.params.path = some f ∧
            f.content ≠ mAttrChk.params.content))) :=
  run_module_check_mode_no_mutation mAttrChk fsOne (by decide)

/-- Claim C4: for a non-dry-run invocation where the target exists with
content identical to the requested content, the content write is skipped
(the stored content stays the old content of the file), ownership/mode are
still checked and applied when different, and such an attribute change
alone determines the reported `changed`. -/
theorem run_module_skip_write (m : Module) (fs : FS) (f : FileState)
    (h1 : m.check_mode = false)
    (h2 : findFile fs.files m.params.path = some f)
    (h3 : f.content = m.params.content)
    (h4 : f.readErr = none)
    (h5 : m.params.force = true) :
    (run_module m fs).1.isExit = true ∧
    (run_module m fs).1.result.changed =
      attrs_differ fs m.params.path m.params.owner m.params.group m.params.mode ∧
    (findFile (run_module m fs).2.files m.params.path).map FileState.content =
      some f.content ∧
    attrsOf (run_module m fs).2 m.params.path =
      some (m.params.owner.getD f.owner, m.params.group.getD f.group,
        m.params.mode.getD f.mode) := by
  have hex : FS.pathExists fs m.params.path = true := by simp [FS.pathExists, h2]
  have hread := read_file_of_readable fs m.params.path f h2 h4
  simp [run_module, h1, h5, hex, hread, Except.map, h3, Outcome.isExit, Outcome.result,
    set_attr_fst, set_attr_content, h2,
    set_attr_apply fs m.params.path m.params.owner m.params.group m.params.mode false f h2,
    apply_ite ModuleResult.changed]

/-- Claim C4 witness: the theorem applied to the identical-content,
different-mode fixture. -/
theorem run_module_skip_write_witness :
    (run_module mAttrReal fsOne).1.isExit = true ∧
    (run_module mAttrReal fsOne).1.result.changed =
      attrs_differ fsOne mAttrReal.params.path mAttrReal.params.owner
        mAttrReal.params.group mAttrReal.params.mode ∧
    (findFile (run_module mAttrReal fsOne).2.files mAttrReal.params.path).map
      FileState.content = some ({ content := "h" } : FileState).content ∧
    attrsOf (run_module mAttrReal fsOne).2 mAttrReal.params.path =
      some (mAttrReal.params.owner.getD ({ content := "h" } : FileState).owner,
        mAttrReal.params.group.getD ({ content := "h" } : FileState).group,
        mAttrReal.params.mode.getD ({ content := "h" } : FileState).mode) :=
  run_module_skip_write mAttrReal fsOne { content := "h" }
    (by decide) (by decide) (by decide) (by decide) (by decide)

/-- Claim C5: for a non-dry-run invocation with `backup = true` where the
target exists with different content, a backup copy is created whose
content equals the pre-write content of the target, its path is recorded in
the result, and after the write the target holds the requested content. -/
theorem run_module_backup_then_write (m : Module) (fs : FS) (f : FileState)
    (h1 : m.check_mode = false)
    (h2 : m.params.backup = true)
    (h3 : findFile fs.files m.params.path = some f)
    (h4 : f.content ≠ m.params.content)
    (h5 : f.readErr = none)
    (h6 : lookupStr fs.writeErr m.params.path = none)
    (h7 : lookupStr fs.writeErr (backup_name m.params.path m.pid m.timestamp) = none)
    (h8 : m.params.force = true) :
    (run_module m fs).1.isExit = true ∧
    (run_module m fs).1.result.backup_file =
      some (backup_name m.params.path m.pid m.timestamp) ∧
    (findFile (run_module m fs).2.files
        (backup_name m.params.path m.pid m.timestamp)).map FileState.content =
      some f.content ∧
    (findFile (run_module m fs).2.files m.params.path).map FileState.content =
      some m.params.content := by
  have hex : FS.pathExists fs m.params.path = true := by simp [FS.pathExists, h3]
  have hread := read_file_of_readable fs m.params.path f h3 h5
  have hbk : create_backup m fs m.params.path =
      (some (backup_name m.params.path m.pid m.timestamp), [],
        fs.setFile (backup_name m.params.path m.pid m.timestamp) f) := by
    simp [create_backup, hex, backup_local, h7, h3]
  obtain ⟨fs2, hw, hcw, hwq, hwe2⟩ :=
    write_file_ok (fs.setFile (backup_name m.params.path m.pid m.timestamp) f)
      m.params.path m.params.content h6
  have hbname : (findFile fs2.files (backup_name m.params.path m.pid m.timestamp)).map
      FileState.content = some f.content := by
    rw [hwq _ (backup_name_ne m.params.path m.pid m.timestamp)]
    simp [FS.setFile, findFile_setEntry_self]
  simp [run_module, h1, h2, h8, hex, hread, Except.map, Outcome.isExit, Outcome.result,
    h4, hbk, hw, set_attr_content, hcw, hbname, apply_ite ModuleResult.changed,
    apply_ite ModuleResult.backup_file,
    set_attr_findFile_ne fs2 m.params.path (backup_name m.params.path m.pid m.timestamp)
      m.params.owner m.params.group m.params.mode
      (backup_name_ne m.params.path m.pid m.timestamp)]

/-- Claim C5 witness: the theorem applied to the backup fixture. -/
theorem run_module_backup_then_write_witness :
    (run_module mBak fsOne).1.isExit = true ∧
    (run_module mBak fsOne).1.result.backup_file =
      some (backup_name mBak.params.path mBak.pid mBak.timestamp) ∧
    (findFile (run_module mBak fsOne).2.files
        (backup_name mBak.params.path mBak.pid mBak.timestamp)).map FileState.content =
      some ({ content := "h" } : FileState).content ∧
    (findFile (run_module mBak fsOne).2.files mBak.params.path).map FileState.content =
      some mBak.params.content :=
  run_module_backup_then_write mBak fsOne { content := "h" }
    (by decide) (by decide) (by decide) (by decide) (by decide) (by decide) (by decide)
    (by decide)

/-- Claim C6: a failure while creating the backup copy is non-fatal — it is
downgraded to a logged warning, the backup path is omitted from the result,
and the main content write still proceeds. -/
theorem run_module_backup_failure_nonfatal (m : Module) (fs : FS) (f : FileState)
    (e : String)
    (h1 : m.check_mode = false)
    (h2 : m.params.backup = true)
    (h3 : findFile fs.files m.params.path = some f)
    (h4 : f.content ≠ m.params.content)
    (h5 : f.readErr = none)
    (h6 : lookupStr fs.writeErr m.params.path = none)
    (h7 : lookupStr fs.writeErr (backup_name m.params.path m.pid m.timestamp) = some e)
    (h8 : m.params.force = true) :
    (run_module m fs).1.isExit = true ∧
    (run_module m fs).1.result.backup_file = none ∧
    (run_module m fs).1.warnings = ["Не удалось создать резервную копию: " ++ e] ∧
    (findFile (run_module m fs).2.files m.params.path).map FileState.content =
      some m.params.content := by
  have hex : FS.pathExists fs m.params.path = true := by simp [FS.pathExists, h3]
  have hread := read_file_of_readable fs m.params.path f h3 h5
  have hbk : create_backup m fs m.params.path =
      (none, ["Не удалось создать резервную копию: " ++ e], fs) := by
    simp [create_backup, hex, backup_local, h7]
  obtain ⟨fs2, hw, hcw, hwq, hwe2⟩ := write_file_ok fs m.params.path m.params.content h6
  simp [run_module, h1, h2, h8, hex, hread, Except.map, Outcome.isExit, Outcome.result,
    Outcome.warnings, h4, hbk, hw, set_attr_content, hcw,
    apply_ite ModuleResult.changed, apply_ite ModuleResult.backup_file]

/-- Claim C6 witness: the theorem applied to the failing-backup fixture. -/
theorem run_module_backup_failure_nonfatal_witness :
    (run_module mBak fsBakErr).1.isExit = true ∧
    (run_module mBak fsBakErr).1.result.backup_file = none ∧
    (run_module mBak fsBakErr).1.warnings =
      ["Не удалось создать резервную копию: " ++ "EACCES"] ∧
    (findFile (run_module mBak fsBakErr).2.files mBak.params.path).map FileState.content =
      some mBak.params.content :=
  run_module_backup_failure_nonfatal mBak fsBakErr { content := "h" } "EACCES"
    (by decide) (by decide) (by decide) (by decide) (by decide) (by decide) (by decide)
    (by decide)

/-- Claim C7: for a non-dry-run invocation that reaches the write step, a
write failure is fatal — the module fails with a message carrying the
underlying OS error text — and a successful write fully replaces any prior
content of the target with the requested content. -/
theorem run_module_write_fatal_or_replaces (m : Module) (fs : FS)
    (h1 : m.check_mode = false)
    (h2 : m.params.force = true)
    (h3 : ∀ f, findFile fs.files m.params.path = some f →
      f.readErr = none ∧ f.content ≠ m.params.content)
    (h4 : fs.dirs.contains m.params.path = false) :
    (∀ e, lookupStr fs.writeErr m.params.path = some e →
      (run_module m fs).1.failMsg =
        some ("Не удалось записать файл " ++ m.params.path ++ ": " ++ e)) ∧
    (lookupStr fs.writeErr m.params.path = none →
      (run_module m fs).1.isExit = true ∧
      (findFile (run_module m fs).2.files m.params.path).map FileState.content =
        some m.params.content) := by
  cases hff : findFile fs.files m.params.path with
  | none =>
    have hex : FS.pathExists fs m.params.path = false := by
      simp [FS.pathExists, hff]
      simpa using h4
    constructor
    · intro e he
      have hwf := write_file_error fs m.params.path m.params.content e he
      simp [run_module, h1, hex, hwf, Outcome.failMsg, apply_ite ModuleResult.changed]
    · intro hnone
      obtain ⟨fs2, hw, hcw, hwq, hwe2⟩ :=
        write_file_ok fs m.params.path m.params.content hnone
      simp [run_module, h1, hex, hw, Outcome.isExit, set_attr_content, hcw,
        apply_ite ModuleResult.changed]
  | some f =>
    obtain ⟨hre, hcne⟩ := h3 f hff
    have hex : FS.pathExists fs m.params.path = true := by simp [FS.pathExists, hff]
    have hread := read_file_of_readable fs m.params.path f hff hre
    cases hb : m.params.backup with
    | false =>
      constructor
      · intro e he
        have hwf := write_file_error fs m.params.path m.params.content e he
        simp [run_module, h1, h2, hb, hex, hread, Except.map, hcne, hwf, Outcome.failMsg,
          apply_ite ModuleResult.changed]
      · intro hnone
        obtain ⟨fs2, hw, hcw, hwq, hwe2⟩ :=
          write_file_ok fs m.params.path m.params.content hnone
        simp [run_module, h1, h2, hb, hex, hread, Except.map, hcne, hw,
          Outcome.isExit, set_attr_content, hcw, apply_ite ModuleResult.changed]
    | true =>
      cases hbe : lookupStr fs.writeErr (backup_name m.params.path m.pid m.timestamp) with
      | none =>
        have hbk : create_backup m fs m.params.path =
            (some (backup_name m.params.path m.pid m.timestamp), [],
              fs.setFile (backup_name m.params.path m.pid m.timestamp) f) := by
          simp [create_backup, hex, backup_local, hbe, hff]
        constructor
        · intro e he
          have hwf := write_file_error
            (fs.setFile (backup_name m.params.path m.pid m.timestamp) f)
            m.params.path m.params.content e he
          simp [run_module, h1, h2, hb, hex, hread, Except.map, hcne, hbk, hwf,
            Outcome.failMsg, apply_ite ModuleResult.changed]
        · intro hnone
          obtain ⟨fs2, hw, hcw, hwq, hwe2⟩ := write_file_ok
            (fs.setFile (backup_name m.params.path m.pid m.timestamp) f)
            m.params.path m.params.content hnone
          simp [run_module, h1, h2, hb, hex, hread, Except.map, hcne, hbk, hw,
            Outcome.isExit, set_attr_content, hcw, apply_ite ModuleResult.changed]
      | some e2 =>
        have hbk : create_backup m fs m.params.path =
            (none, ["Не удалось создать резервную копию: " ++ e2], fs) := by
          simp [create_backup, hex, backup_local, hbe]
        constructor
        · intro e he
          have hwf := write_file_error fs m.params.path m.params.content e he
          simp [run_module, h1, h2, hb, hex, hread, Except.map, hcne, hbk, hwf,
            Outcome.failMsg, apply_ite ModuleResult.changed]
        · intro hnone
          obtain ⟨fs2, hw, hcw, hwq, hwe2⟩ :=
            write_file_ok fs m.params.path m.params.content hnone
          simp [run_module, h1, h2, hb, hex, hread, Except.map, hcne, hbk, hw,
            Outcome.isExit, set_attr_content, hcw, apply_ite ModuleResult.changed]

/-- Claim C7 witness: the theorem applied to a fixture whose target path
raises `ENOSPC` on write. -/
theorem run_module_write_fatal_or_replaces_witness :
    (∀ e, lookupStr fsErrW.writeErr mPlain.params.path = some e →
      (run_module mPlain fsErrW).1.failMsg =
        some ("Не удалось записать файл " ++ mPlain.params.path ++ ": " ++ e)) ∧
    (lookupStr fsErrW.writeErr mPlain.params.path = none →
      (run_module mPlain fsErrW).1.isExit = true ∧
      (findFile (run_module mPlain fsErrW).2.files mPlain.params.path).map
        FileState.content = some mPlain.params.content) :=
  run_module_write_fatal_or_replaces mPlain fsErrW (by decide) (by decide)
    (by intro f hf; simp [fsErrW, findFile] at hf) (by decide)

/-- Claim C8: the diff field is present in the result only when diff
reporting applies (diff mode or check mode), and a before/after pair is
captured only when the target file exists (and is readable): the pair then
holds the current content and the requested content. -/
theorem run_module_diff_reporting (m : Module) (fs : FS) :
    ((run_module m fs).1.result.diff ≠ none →
      (m.diff_mode = true ∨ m.check_mode = true)) ∧
    (∀ d, (run_module m fs).1.result.diff = some (some d) →
      ∃ f, findFile fs.files m.params.path = some f ∧ f.readErr = none ∧
        d.before = f.content ∧ d.after = m.params.content) := by
  have hshape : (run_module m fs).1.result.diff = none ∨
      ((m.diff_mode = true ∨ m.check_mode = true) ∧
        (run_module m fs).1.result.diff =
          some (get_file_diff fs m.params.path m.params.content)) := by
    simp only [run_module]
    repeat' split
    all_goals try (left; simp [Outcome.result]; done)
    all_goals (right; constructor
               · simp_all
               · simp [Outcome.result])
  constructor
  · intro hne
    rcases hshape with hnone | ⟨hor, _⟩
    · exact absurd hnone hne
    · exact hor
  · intro d hd
    rcases hshape with hnone | ⟨_, hsome⟩
    · rw [hnone] at hd
      exact absurd hd (by simp)
    · rw [hsome] at hd
      exact get_file_diff_some fs m.params.path m.params.content d (Option.some.inj hd)

/-- Claim C8 witness: in check mode against an existing readable file the
diff field is present and reporting applies. -/
theorem run_module_diff_reporting_witness :
    (run_module mAttrChk fsOne).1.result.diff =
      some (some { before := "h", after := "h" }) ∧
    (mAttrChk.diff_mode = true ∨ mAttrChk.check_mode = true) :=
  ⟨by decide, (run_module_diff_reporting mAttrChk fsOne).1 (by decide)⟩

/-- Claim C1: for every invocation that completes successfully, the
reported `changed` is true exactly when the target file did not previously
exist, or its content differed from the requested content, or its
owner/group/mode were altered (the final attributes of the path differ
from its initial ones). -/
theorem run_module_changed_iff (m : Module) (fs : FS)
    (hx : (run_module m fs).1.isExit = true) :
    (run_module m fs).1.result.changed = true ↔
      (findFile fs.files m.params.path = none ∨
        (∃ f, findFile fs.files m.params.path = some f ∧
          f.content ≠ m.params.content) ∨
        attrsOf (run_module m fs).2 m.params.path ≠
          attrsOf fs m.params.path) := by
  cases hex : FS.pathExists fs m.params.path with
  | false =>
    have hff := findFile_none_of_not_exists fs m.params.path hex
    cases hcm : m.check_mode with
    | true =>
      simp [run_module, hex, hcm, Outcome.isExit, Outcome.result, hff]
    | false =>
      cases hwc : lookupStr fs.writeErr m.params.path with
      | some e =>
        have hwf := write_file_error fs m.params.path m.params.content e hwc
        rw [run_module] at hx
        simp [hex, hcm, hwf, Outcome.isExit, apply_ite ModuleResult.changed] at hx
      | none =>
        obtain ⟨fs2, hw, hcw, hwq, hwe2⟩ :=
          write_file_ok fs m.params.path m.params.content hwc
        simp [run_module, hex, hcm, hw, set_attr_fst, Outcome.isExit, Outcome.result,
          hff, apply_ite ModuleResult.changed]
  | true =>
    cases hforce : m.params.force with
    | false =>
      rw [run_module] at hx
      simp [hex, hforce, Outcome.isExit] at hx
    | true =>
      cases hff : findFile fs.files m.params.path with
      | none =>
        have hread : fs.read_file m.params.path =
            Except.error ("No such file or directory: " ++ m.params.path) := by
          simp [FS.read_file, hff]
        rw [run_module] at hx
        simp [hex, hforce, hread, Except.map, Outcome.isExit] at hx
      | some f =>
        cases hre : f.readErr with
        | some e =>
          have hread := read_file_err fs m.params.path f e hff hre
          rw [run_module] at hx
          simp [hex, hforce, hread, Except.map, Outcome.isExit] at hx
        | none =>
          have hread := read_file_of_readable fs m.params.path f hff hre
          by_cases hc : f.content = m.params.content
          · cases hcm : m.check_mode with
            | true =>
              simp [run_module, hex, hforce, hread, Except.map, hcm, hc,
                Outcome.isExit, Outcome.result, hff]
            | false =>
              simp [run_module, hex, hforce, hread, Except.map, hcm, hc,
                Outcome.isExit, Outcome.result, hff, set_attr_fst,
                set_attr_attrsOf_ne, apply_ite ModuleResult.changed]
          · cases hcm : m.check_mode with
            | true =>
              simp [run_module, hex, hforce, hread, Except.map, hcm, hc,
                Outcome.isExit, Outcome.result, hff]
            | false =>
              cases hb : m.params.backup with
              | false =>
                cases hwc : lookupStr fs.writeErr m.params.path with
                | some e =>
                  have hwf := write_file_error fs m.params.path m.params.content e hwc
                  rw [run_module] at hx
                  simp [hex, hforce, hread, Except.map, hcm, hc, hb, hwf,
                    Outcome.isExit, apply_ite ModuleResult.changed] at hx
                | none =>
                  obtain ⟨fs2, hw, hcw, hwq, hwe2⟩ :=
                    write_file_ok fs m.params.path m.params.content hwc
                  simp [run_module, hex, hforce, hread, Except.map, hcm, hc, hb, hw,
                    set_attr_fst, Outcome.isExit, Outcome.result, hff,
                    apply_ite ModuleResult.changed]
              | true =>
                cases hbe : lookupStr fs.writeErr
                    (backup_name m.params.path m.pid m.timestamp) with
                | none =>
                  have hbk : create_backup m fs m.params.path =
                      (some (backup_name m.params.path m.pid m.timestamp), [],
                        fs.setFile (backup_name m.params.path m.pid m.timestamp) f) := by
                    simp [create_backup, hex, backup_local, hbe, hff]
                  cases hwc : lookupStr fs.writeErr m.params.path with
                  | some e =>
                    have hwf := write_file_error
                      (fs.setFile (backup_name m.params.path m.pid m.timestamp) f)
                      m.params.path m.params.content e hwc
                    rw [run_module] at hx
                    simp [hex, hforce, hread, Except.map, hcm, hc, hb, hbk, hwf,
                      Outcome.isExit, apply_ite ModuleResult.changed] at hx
                  | none =>
                    obtain ⟨fs2, hw, hcw, hwq, hwe2⟩ := write_file_ok
                      (fs.setFile (backup_name m.params.path m.pid m.timestamp) f)
                      m.params.path m.params.content hwc
                    simp [run_module, hex, hforce, hread, Except.map, hcm, hc, hb, hbk,
                      hw, set_attr_fst, Outcome.isExit, Outcome.result, hff,
                      apply_ite ModuleResult.changed]
                | some e2 =>
                  have hbk : create_backup m fs m.params.path =
                      (none, ["Не удалось создать резервную копию: " ++ e2], fs) := by
                    simp [create_backup, hex, backup_local, hbe]
                  cases hwc : lookupStr fs.writeErr m.params.path with
                  | some e =>
                    have hwf := write_file_error fs m.params.path m.params.content e hwc
                    rw [run_module] at hx
                    simp [hex, hforce, hread, Except.map, hcm, hc, hb, hbk, hwf,
                      Outcome.isExit, apply_ite ModuleResult.changed] at hx
                  | none =>
                    obtain ⟨fs2, hw, hcw, hwq, hwe2⟩ :=
                      write_file_ok fs m.params.path m.params.content hwc
                    simp [run_module, hex, hforce, hread, Except.map, hcm, hc, hb, hbk,
                      hw, set_attr_fst, Outcome.isExit, Outcome.result, hff,
                      apply_ite ModuleResult.changed]

/-- Claim C1 witness: the theorem applied to the create-a-new-file
fixture. -/
theorem run_module_changed_iff_witness :
    (run_module mNew fsEmpty).1.result.changed = true ↔
      (findFile fsEmpty.files mNew.params.path = none ∨
        (∃ f, findFile fsEmpty.files mNew.params.path = some f ∧
          f.content ≠ mNew.params.content) ∨
        attrsOf (run_module mNew fsEmpty).2 mNew.params.path ≠
          attrsOf fsEmpty mNew.params.path) :=
  run_module_changed_iff mNew fsEmpty (by decide)

end CreateFile
